import Mathlib

/-!
Package w32find: window lookup through user32.

A shallow embedding of `findwindow.go`.  The four user32 procedures that the
package reaches through `syscall.Syscall` are parameters of the embedded
functions, so every statement holds for arbitrary native behaviour unless a
concrete model of the native side is named in it.

* Go strings are byte sequences (`GoString`); UTF-16 buffers are lists of
  16-bit units; bytes, units, handles and error numbers are naturals.
* A Go `error` is `Option GoError`, `none` being `nil`.
* The closure variable `hwnd` captured by the enumeration callback is threaded
  through the callback as explicit state.
-/

namespace W32Find

/-! ## Data model -/

/-- Window handle, `syscall.Handle` (a `uintptr`); zero is "no window". -/
abbrev Handle := Nat

/-- Native error number, `syscall.Errno` (a `uintptr`). -/
abbrev Errno := Nat

/-- Go `string`: an arbitrary sequence of bytes. -/
abbrev GoString := List Nat

/-- Go `[]uint16`: a sequence of UTF-16 code units. -/
abbrev UTF16 := List Nat

/-- Go `error` values produced by the package: an `Errno`, or an error built
from a message by `errors.New` / `fmt.Errorf`. -/
inductive GoError where
  | errno (e : Errno)
  | text (msg : GoString)
  deriving DecidableEq, Repr

/-- The constant `syscall.EINVAL` on windows (`APPLICATION_ERROR + 39`). -/
def EINVAL : Errno := 536870951

/-- Bytes of an ASCII string literal of the source. -/
def lit (s : String) : GoString := s.toList.map Char.toNat

/-- Conversion `int32(r)` of a `uintptr`: keep the low 32 bits, read as signed. -/
def int32 (r : Nat) : Int :=
  if r % 2 ^ 32 < 2 ^ 31 then (r % 2 ^ 32 : Nat) else (r % 2 ^ 32 : Nat) - 2 ^ 32

/-- What a `syscall.Syscall` hands back to the wrappers: the first result
register, the error number, and the memory the native call could write to. -/
structure Ret (σ : Type) where
  r1 : Nat
  err : Errno
  mem : σ

/-! ## Go standard library: UTF-8, UTF-16 and WTF-8 conversions

The package calls `syscall.UTF16ToString` and `syscall.UTF16PtrFromString`.  They
are embedded after `syscall/wtf8_windows.go`, `unicode/utf8` and
`unicode/utf16`: a UTF-16 surrogate without partner is kept, as the three
bytes ED A0..BF 80..BF (WTF-8) on the string side and as the single unit on
the UTF-16 side; any other invalid UTF-8 byte becomes U+FFFD. -/

/-- The replacement character `utf8.RuneError` / `unicode.ReplacementChar`. -/
def RuneError : Nat := 0xFFFD

/-- The function `utf8.DecodeRuneInString`: first rune of `s` and its width in bytes. -/
def DecodeRuneInString (s : GoString) : Nat × Nat :=
  match s with
  | [] => (RuneError, 0)
  | p0 :: rest =>
    if p0 < 0x80 then (p0, 1)
    else if p0 < 0xC2 ∨ 0xF4 < p0 then (RuneError, 1)
    else
      let sz := if p0 < 0xE0 then 2 else if p0 < 0xF0 then 3 else 4
      let lo := if p0 = 0xE0 then 0xA0 else if p0 = 0xF0 then 0x90 else 0x80
      let hi := if p0 = 0xED then 0x9F else if p0 = 0xF4 then 0x8F else 0xBF
      if rest.length + 1 < sz then (RuneError, 1)
      else
        let b1 := rest.getD 0 0
        if b1 < lo ∨ hi < b1 then (RuneError, 1)
        else if sz ≤ 2 then ((p0 &&& 0x1F) <<< 6 ||| (b1 &&& 0x3F), 2)
        else
          let b2 := rest.getD 1 0
          if b2 < 0x80 ∨ 0xBF < b2 then (RuneError, 1)
          else if sz ≤ 3 then
            ((p0 &&& 0x0F) <<< 12 ||| (b1 &&& 0x3F) <<< 6 ||| (b2 &&& 0x3F), 3)
          else
            let b3 := rest.getD 2 0
            if b3 < 0x80 ∨ 0xBF < b3 then (RuneError, 1)
            else
              ((p0 &&& 0x07) <<< 18 ||| (b1 &&& 0x3F) <<< 12 ||| (b2 &&& 0x3F) <<< 6
                ||| (b3 &&& 0x3F), 4)

/-- The function `utf16.AppendRune`: the units of one rune. -/
def utf16AppendRune (v : Nat) : UTF16 :=
  if v < 0xD800 ∨ (0xE000 ≤ v ∧ v < 0x10000) then [v]
  else if 0x10000 ≤ v ∧ v ≤ 0x10FFFF then
    [0xD800 + (((v - 0x10000) >>> 10) &&& 0x3FF), 0xDC00 + ((v - 0x10000) &&& 0x3FF)]
  else [RuneError]

/-- The test of `encodeWTF16` on the bytes at the current index: they start with
a WTF-8 encoded surrogate. -/
def startsWithSurrogate (sc : GoString) : Bool :=
  decide (3 ≤ sc.length) && decide (sc.getD 0 0 = 0xED) &&
    decide (0xA0 ≤ sc.getD 1 0) && decide (sc.getD 1 0 ≤ 0xBF) &&
    decide (0x80 ≤ sc.getD 2 0) && decide (sc.getD 2 0 ≤ 0xBF)

/-- The loop of `encodeWTF16` (`syscall/wtf8_windows.go`); `skip` counts the bytes
of the rune just read that the index still has to pass.  A WTF-8 surrogate is
copied as its single unit, every other rune goes through `utf16.AppendRune`. -/
def encodeWTF16 : Nat → GoString → UTF16
  | _, [] => []
  | skip + 1, _ :: rest => encodeWTF16 skip rest
  | 0, b :: rest =>
    let d := DecodeRuneInString (b :: rest)
    if d.1 = RuneError ∧ startsWithSurrogate (b :: rest) = true then
      (((b &&& 0x0F) <<< 12) + ((rest.getD 0 0 &&& 0x3F) <<< 6) + (rest.getD 1 0 &&& 0x3F))
        :: encodeWTF16 2 rest
    else utf16AppendRune d.1 ++ encodeWTF16 (d.2 - 1) rest

/-- The function `utf8.AppendRune`: the UTF-8 bytes of one rune. -/
def utf8AppendRune (r : Nat) : GoString :=
  if r < 0x80 then [r]
  else if r < 0x800 then [0xC0 ||| (r >>> 6), 0x80 ||| (r &&& 0x3F)]
  else if 0x10FFFF < r ∨ (0xD800 ≤ r ∧ r ≤ 0xDFFF) then [0xEF, 0xBF, 0xBD]
  else if r < 0x10000 then
    [0xE0 ||| (r >>> 12), 0x80 ||| ((r >>> 6) &&& 0x3F), 0x80 ||| (r &&& 0x3F)]
  else
    [0xF0 ||| (r >>> 18), 0x80 ||| ((r >>> 12) &&& 0x3F), 0x80 ||| ((r >>> 6) &&& 0x3F),
      0x80 ||| (r &&& 0x3F)]

/-- The WTF-8 fallback of `decodeWTF16`: the three bytes of a surrogate unit. -/
def wtf8Surrogate (r : Nat) : GoString :=
  [0xE0 ||| ((r >>> 12) % 256), 0x80 ||| (((r >>> 6) % 256) &&& 0x3F),
    0x80 ||| ((r % 256) &&& 0x3F)]

/-- The function `decodeWTF16` (`syscall/wtf8_windows.go`): surrogate pairs are
joined and written as four bytes, a surrogate without its partner is written
as its three WTF-8 bytes, every other unit goes through `utf8.AppendRune`. -/
def decodeWTF16 : UTF16 → GoString
  | [] => []
  | [r] => if r < 0xD800 ∨ 0xE000 ≤ r then utf8AppendRune r else wtf8Surrogate r
  | r :: r2 :: rest =>
    if r < 0xD800 ∨ 0xE000 ≤ r then utf8AppendRune r ++ decodeWTF16 (r2 :: rest)
    else if r < 0xDC00 ∧ 0xDC00 ≤ r2 ∧ r2 < 0xE000 then
      utf8AppendRune (((r - 0xD800) <<< 10 ||| (r2 - 0xDC00)) + 0x10000) ++ decodeWTF16 rest
    else wtf8Surrogate r ++ decodeWTF16 (r2 :: rest)

/-- The function `syscall.UTF16ToString`: the units before the first NUL, written
as WTF-8. -/
def UTF16ToString (s : UTF16) : GoString :=
  decodeWTF16 (s.takeWhile (fun v => v != 0))

/-- The function `syscall.UTF16FromString`: refuses a string with a NUL byte,
otherwise its WTF-16 form with a terminating NUL. -/
def UTF16FromString (s : GoString) : Except GoError UTF16 :=
  if 0 ∈ s then .error (.errno EINVAL) else .ok (encodeWTF16 0 s ++ [0])

/-- The function `syscall.UTF16PtrFromString`; the pointer is modelled by the
NUL-terminated buffer it points to. -/
def UTF16PtrFromString (s : GoString) : Except GoError UTF16 := UTF16FromString s

/-! ## The package: `findwindow.go` -/

/-- Type of the callback handed to `EnumWindows`: it receives a window handle and
`lparam`, may update the variables it captured (`σ`), and returns zero to stop
the enumeration. -/
abbrev EnumFunc (σ : Type) := Handle → Nat → σ → σ × Nat

/-- Wrapper `EnumWindows(enumFunc, lparam)`: one call of `procEnumWindows`; a zero
result becomes the error number of the call, or `EINVAL` when there is none. -/
def EnumWindows {σ : Type} (procEnumWindows : EnumFunc σ → Nat → σ → Ret σ)
    (enumFunc : EnumFunc σ) (lparam : Nat) (s : σ) : σ × Option GoError :=
  let r := procEnumWindows enumFunc lparam s
  if r.r1 = 0 then
    if r.err ≠ 0 then (r.mem, some (.errno r.err))
    else (r.mem, some (.errno EINVAL))
  else (r.mem, none)

/-- Wrapper `GetWindowText(hwnd, str, maxCount)`: one call of `procGetWindowTextW`
on the buffer `str`; returns the buffer after the call, `len` and `err`. -/
def GetWindowText (procGetWindowTextW : Handle → UTF16 → Int → Ret UTF16)
    (hwnd : Handle) (str : UTF16) (maxCount : Int) : UTF16 × Int × Option GoError :=
  let r := procGetWindowTextW hwnd str maxCount
  let len := int32 r.r1
  if len = 0 then
    if r.err ≠ 0 then (r.mem, len, some (.errno r.err))
    else (r.mem, len, some (.errno EINVAL))
  else (r.mem, len, none)

/-- Wrapper `FindWindowW(className, windowName)`; a nil pointer is `none`. -/
def FindWindowW (procFindWindowW : Option UTF16 → Option UTF16 → Nat)
    (className windowName : Option UTF16) : Handle :=
  procFindWindowW className windowName

/-- Wrapper `FindWindowExW(hwndParent, hwndChildAfter, className, windowName)`. -/
def FindWindowExW (procFindWindowExW : Handle → Handle → Option UTF16 → Option UTF16 → Nat)
    (hwndParent hwndChildAfter : Handle) (className windowName : Option UTF16) : Handle :=
  procFindWindowExW hwndParent hwndChildAfter className windowName

/-- The closure passed to `EnumWindows` by `FindWindowFromEnum`; the state is the
captured variable `hwnd`. -/
def enumCallback (procGetWindowTextW : Handle → UTF16 → Int → Ret UTF16)
    (title : GoString) : EnumFunc Handle :=
  fun h _p hwnd =>
    let b := List.replicate 200 0
    let r := GetWindowText procGetWindowTextW h b (b.length : Nat)
    if r.2.2 ≠ none then (hwnd, 1)
    else if UTF16ToString r.1 = title then (h, 0)
    else (hwnd, 1)

/-- The message `fmt.Errorf("No window with title '%s' found", title)`. -/
def noWindowWithTitle (title : GoString) : GoError :=
  .text (lit "No window with title '" ++ title ++ lit "' found")

/-- The message `errors.New("Window not found")`. -/
def windowNotFound : GoError := .text (lit "Window not found")

/-- The function `FindWindowFromEnum(title)`; the error returned by `EnumWindows`
is dropped, as in the source. -/
def FindWindowFromEnum (procEnumWindows : EnumFunc Handle → Nat → Handle → Ret Handle)
    (procGetWindowTextW : Handle → UTF16 → Int → Ret UTF16)
    (title : GoString) : Handle × Option GoError :=
  let hwnd := (EnumWindows procEnumWindows (enumCallback procGetWindowTextW title) 0 0).1
  if hwnd = 0 then (0, some (noWindowWithTitle title))
  else (hwnd, none)

/-- The prologue shared by `FindWindow` and `FindWindowEx`: an empty string stays
the nil pointer, any other string goes through `utf16ptr`
(`syscall.UTF16PtrFromString` in the source). -/
def ptrOrNil (utf16ptr : GoString → Except GoError UTF16) (s : GoString) :
    Except GoError (Option UTF16) :=
  if s ≠ [] then
    match utf16ptr s with
    | .error err => .error err
    | .ok p => .ok (some p)
  else .ok none

/-- The function `FindWindow(className, windowName)`. -/
def FindWindow (utf16ptr : GoString → Except GoError UTF16)
    (procFindWindowW : Option UTF16 → Option UTF16 → Nat)
    (className windowName : GoString) : Handle × Option GoError :=
  match ptrOrNil utf16ptr className with
  | .error err => (0, some err)
  | .ok ptrStrClassName =>
    match ptrOrNil utf16ptr windowName with
    | .error err => (0, some err)
    | .ok ptrStrWindowName =>
      let h := FindWindowW procFindWindowW ptrStrClassName ptrStrWindowName
      if h = 0 then (0, some windowNotFound)
      else (h, none)

/-- The function `FindWindowEx(hwndParent, hwndChildAfter, className, windowName)`. -/
def FindWindowEx (utf16ptr : GoString → Except GoError UTF16)
    (procFindWindowExW : Handle → Handle → Option UTF16 → Option UTF16 → Nat)
    (hwndParent hwndChildAfter : Handle) (className windowName : GoString) :
    Handle × Option GoError :=
  match ptrOrNil utf16ptr className with
  | .error err => (0, some err)
  | .ok ptrStrClassName =>
    match ptrOrNil utf16ptr windowName with
    | .error err => (0, some err)
    | .ok ptrStrWindowName =>
      let h := FindWindowExW procFindWindowExW hwndParent hwndChildAfter
        ptrStrClassName ptrStrWindowName
      if h = 0 then (0, some windowNotFound)
      else (h, none)

/-! ## Models of the native side -/

/-- Native enumeration over a finite list of top-level windows: the callback is
run on each handle in order until it returns zero; the flag tells whether it
stopped the enumeration. -/
def enumLoop {σ : Type} (enumFunc : EnumFunc σ) (lparam : Nat) : List Handle → σ → σ × Bool
  | [], s => (s, false)
  | h :: hs, s =>
    let r := enumFunc h lparam s
    if r.2 = 0 then (r.1, true) else enumLoop enumFunc lparam hs r.1

/-- Model of user32 `EnumWindows` over the windows `hs`: the result register is
zero when the callback stopped the enumeration and `done` when every window was
visited (`done = 0` is the primitive reporting failure); `e` is the error number
left behind by the call. -/
def listEnumWindows {σ : Type} (hs : List Handle) (done : Nat) (e : Errno)
    (enumFunc : EnumFunc σ) (lparam : Nat) (s : σ) : Ret σ :=
  let r := enumLoop enumFunc lparam hs s
  { r1 := if r.2 then 0 else done, err := e, mem := r.1 }

/-- A live top-level window: its handle, its real title in UTF-16 units, and the
error number a title read on it leaves behind. -/
structure Window where
  h : Handle
  title : UTF16
  lastError : Errno
  deriving DecidableEq, Repr

/-- Model of user32 `GetWindowTextW` on one window: at most `maxCount - 1` units of
the real title are copied to the start of the buffer, followed by a NUL, and the
number of units copied is returned. -/
def copyTitle (w : Window) (buf : UTF16) (maxCount : Int) : Ret UTF16 :=
  if maxCount ≤ 0 then { r1 := 0, err := w.lastError, mem := buf }
  else
    let copied := w.title.take (maxCount - 1).toNat
    { r1 := copied.length, err := w.lastError,
      mem := copied ++ 0 :: buf.drop (copied.length + 1) }

/-- Model of user32 `GetWindowTextW` over the windows `ws`; a handle that names no
window reads nothing and leaves `ERROR_INVALID_WINDOW_HANDLE` (1400). -/
def titleRead (ws : List Window) (hwnd : Handle) (buf : UTF16) (maxCount : Int) : Ret UTF16 :=
  match ws.find? (fun w => w.h = hwnd) with
  | some w => copyTitle w buf maxCount
  | none => { r1 := 0, err := 1400, mem := buf }

/-- The function `FindWindowFromEnum` run against the windows `ws`, enumerated in
list order, the enumeration primitive itself succeeding. -/
def findAmong (ws : List Window) (title : GoString) : Handle × Option GoError :=
  FindWindowFromEnum (listEnumWindows (ws.map Window.h) 1 0) (titleRead ws) title

/-- The window `w` has title `T`: its real title is the WTF-16 form of `T`, the
units `syscall.UTF16FromString` produces for it. -/
def hasTitle (w : Window) (T : GoString) : Prop := w.title = encodeWTF16 0 T

instance (w : Window) (T : GoString) : Decidable (hasTitle w T) :=
  inferInstanceAs (Decidable (w.title = encodeWTF16 0 T))

/-- The title of `w` as a 200-unit buffer shows it: its first 199 units, decoded. -/
def shownTitle (w : Window) : GoString := UTF16ToString (w.title.take 199)

/-- The title read of window `h` succeeds and the buffer decodes to `title`: the
test the callback applies to each window. -/
def titleMatches (procGetWindowTextW : Handle → UTF16 → Int → Ret UTF16)
    (title : GoString) (h : Handle) : Bool :=
  let r := GetWindowText procGetWindowTextW h (List.replicate 200 0) 200
  decide (r.2.2 = none) && decide (UTF16ToString r.1 = title)

/-! ## Conversions -/

/-- Values of the conversions on strings with every width of rune, invalid
bytes, a surrogate pair, surrogates without partner and a NUL. -/
theorem conversions_values :
    UTF16ToString [0xD800] = [0xED, 0xA0, 0x80] ∧
    UTF16ToString [0xDFFF, 0x41] = [0xED, 0xBF, 0xBF, 0x41] ∧
    UTF16ToString [0x68, 0xE9, 0x20AC, 0xD83D, 0xDE00, 0xFFFD, 0, 0x42]
      = [0x68, 0xC3, 0xA9, 0xE2, 0x82, 0xAC, 0xF0, 0x9F, 0x98, 0x80, 0xEF, 0xBF, 0xBD] ∧
    UTF16ToString [0xD83D, 0x41, 0xDC00, 0xDC01]
      = [0xED, 0xA0, 0xBD, 0x41, 0xED, 0xB0, 0x80, 0xED, 0xB0, 0x81] ∧
    UTF16FromString [0xED, 0xA0, 0x80] = .ok [0xD800, 0] ∧
    UTF16FromString [0x68, 0xC3, 0xA9, 0xE2, 0x82, 0xAC, 0xF0, 0x9F, 0x98, 0x80]
      = .ok [0x68, 0xE9, 0x20AC, 0xD83D, 0xDE00, 0] ∧
    UTF16FromString [0xFF, 0xC0, 0x80, 0xED, 0xA0]
      = .ok [0xFFFD, 0xFFFD, 0xFFFD, 0xFFFD, 0xFFFD, 0] ∧
    UTF16FromString [0x41, 0, 0x42] = .error (.errno EINVAL) ∧
    UTF16FromString [] = .ok [0] :=
  ⟨rfl, rfl, rfl, rfl, rfl, rfl, rfl, rfl, rfl⟩

/-! ## Wrappers around a single native call -/

/-- C1 (as amended): when the native title read returns length 0, `GetWindowText`
returns length 0 together with an error in both cases: `EINVAL` when the call
left no error number, and that error number otherwise. -/
theorem getWindowText_zero_length (procGetWindowTextW : Handle → UTF16 → Int → Ret UTF16)
    (hwnd : Handle) (str : UTF16) (maxCount : Int)
    (hlen : int32 (procGetWindowTextW hwnd str maxCount).r1 = 0) :
    ((procGetWindowTextW hwnd str maxCount).err = 0 →
        (GetWindowText procGetWindowTextW hwnd str maxCount).2 = (0, some (.errno EINVAL))) ∧
    ((procGetWindowTextW hwnd str maxCount).err ≠ 0 →
        (GetWindowText procGetWindowTextW hwnd str maxCount).2
          = (0, some (.errno (procGetWindowTextW hwnd str maxCount).err))) := by
  constructor
  · intro he
    simp [GetWindowText, hlen, he]
  · intro he
    simp [GetWindowText, hlen, he]

/-- C1, instance: a read returning length 0 and error number 5. -/
theorem getWindowText_zero_length_witness :
    int32 ((fun _ buf _ => ⟨0, 5, buf⟩ : Handle → UTF16 → Int → Ret UTF16) 7 [0, 0] 2).r1 = 0 ∧
    (GetWindowText (fun _ buf _ => ⟨0, 5, buf⟩) 7 [0, 0] 2).2 = (0, some (.errno 5)) :=
  ⟨by decide, (getWindowText_zero_length (fun _ buf _ => ⟨0, 5, buf⟩) 7 [0, 0] 2
    (by decide)).2 (by decide)⟩

/-- C1 fails as stated: a native read returning length 0 with error number 0 does
not make `GetWindowText` return length 0 with a nil error. -/
theorem getWindowText_zero_no_errno_is_error :
    ¬ (GetWindowText (fun _ buf _ => ⟨0, 0, buf⟩) 7 (List.replicate 200 0) 200).2
        = (0, none) := by
  decide

/-- C6 (as amended): `EnumWindows` returns a nil error exactly when the native
result is non-zero, the error number of the call when the result is zero and
the number is not, and `EINVAL` when both are zero; so when the callback stops
an enumeration over a list of windows and the primitive returns zero for it,
`EnumWindows` returns an error. -/
theorem enumWindows_result :
    (∀ (σ : Type) (procEnumWindows : EnumFunc σ → Nat → σ → Ret σ) (enumFunc : EnumFunc σ)
        (lparam : Nat) (s : σ),
      ((EnumWindows procEnumWindows enumFunc lparam s).2 = none ↔
          (procEnumWindows enumFunc lparam s).r1 ≠ 0) ∧
      ((procEnumWindows enumFunc lparam s).r1 = 0 →
        (procEnumWindows enumFunc lparam s).err ≠ 0 →
          (EnumWindows procEnumWindows enumFunc lparam s).2
            = some (.errno (procEnumWindows enumFunc lparam s).err)) ∧
      ((procEnumWindows enumFunc lparam s).r1 = 0 →
        (procEnumWindows enumFunc lparam s).err = 0 →
          (EnumWindows procEnumWindows enumFunc lparam s).2 = some (.errno EINVAL))) ∧
    (∀ (σ : Type) (hs : List Handle) (done : Nat) (e : Errno) (enumFunc : EnumFunc σ)
        (lparam : Nat) (s : σ),
      (enumLoop enumFunc lparam hs s).2 = true →
        (EnumWindows (listEnumWindows hs done e) enumFunc lparam s).2
          = some (.errno (if e ≠ 0 then e else EINVAL))) := by
  refine ⟨fun σ proc f lp s => ⟨?_, ?_, ?_⟩, ?_⟩
  · by_cases h1 : (proc f lp s).r1 = 0
    · by_cases h2 : (proc f lp s).err = 0 <;> simp [EnumWindows, h1, h2]
    · simp [EnumWindows, h1]
  · intro h1 h2
    simp [EnumWindows, h1, h2]
  · intro h1 h2
    simp [EnumWindows, h1, h2]
  · intro σ hs done e f lp s hstop
    by_cases h2 : e = 0 <;> simp [EnumWindows, listEnumWindows, hstop, h2]

/-- C6, instance: a callback that stops at the first of two windows. -/
theorem enumWindows_result_witness :
    (enumLoop (fun h _ _ => (h, 0) : EnumFunc Handle) 0 [7, 8] 0).2 = true ∧
    (EnumWindows (listEnumWindows [7, 8] 1 0) (fun h _ _ => (h, 0) : EnumFunc Handle) 0 0).2
      = some (.errno (if (0 : Errno) ≠ 0 then 0 else EINVAL)) :=
  ⟨by decide, enumWindows_result.2 Handle [7, 8] 1 0 (fun h _ _ => (h, 0)) 0 0 (by decide)⟩

/-- C6 fails as a promise of success on stop: the callback stops at the first
window, the primitive returns zero for the stopped enumeration, and
`EnumWindows` does not return a nil error. -/
theorem enumWindows_stop_is_error :
    ¬ (EnumWindows (listEnumWindows [7, 8] 1 0) (fun h _ _ => (h, 0) : EnumFunc Handle) 0 0).2
        = none := by
  decide

/-! ## Lookup by class name and window name -/

/-- A string without NUL byte converts: the prologue yields a pointer (nil for the
empty string). -/
theorem ptrOrNil_of_not_mem (s : GoString) (hs : 0 ∉ s) :
    ∃ p, ptrOrNil UTF16PtrFromString s = .ok p := by
  by_cases h : s = []
  · exact ⟨none, by simp [ptrOrNil, h]⟩
  · exact ⟨some (encodeWTF16 0 s ++ [0]),
      by simp [ptrOrNil, h, UTF16PtrFromString, UTF16FromString, hs]⟩

/-- A string with a NUL byte does not convert: the prologue fails with `EINVAL`. -/
theorem ptrOrNil_of_mem (s : GoString) (hs : 0 ∈ s) :
    ptrOrNil UTF16PtrFromString s = .error (.errno EINVAL) := by
  have h : s ≠ [] := by
    intro h
    simp [h] at hs
  simp [ptrOrNil, h, UTF16PtrFromString, UTF16FromString, hs]

/-- Value of `FindWindow` once both strings have converted to `pc` and `pw`. -/
theorem findWindow_eq (utf16ptr : GoString → Except GoError UTF16)
    (procFindWindowW : Option UTF16 → Option UTF16 → Nat)
    (className windowName : GoString) (pc pw : Option UTF16)
    (hc : ptrOrNil utf16ptr className = .ok pc) (hw : ptrOrNil utf16ptr windowName = .ok pw) :
    FindWindow utf16ptr procFindWindowW className windowName
      = if procFindWindowW pc pw = 0 then (0, some windowNotFound)
        else (procFindWindowW pc pw, none) := by
  simp [FindWindow, FindWindowW, hc, hw]

/-- Value of `FindWindowEx` once both strings have converted to `pc` and `pw`. -/
theorem findWindowEx_eq (utf16ptr : GoString → Except GoError UTF16)
    (procFindWindowExW : Handle → Handle → Option UTF16 → Option UTF16 → Nat)
    (hwndParent hwndChildAfter : Handle)
    (className windowName : GoString) (pc pw : Option UTF16)
    (hc : ptrOrNil utf16ptr className = .ok pc) (hw : ptrOrNil utf16ptr windowName = .ok pw) :
    FindWindowEx utf16ptr procFindWindowExW hwndParent hwndChildAfter className windowName
      = if procFindWindowExW hwndParent hwndChildAfter pc pw = 0 then (0, some windowNotFound)
        else (procFindWindowExW hwndParent hwndChildAfter pc pw, none) := by
  simp [FindWindowEx, FindWindowExW, hc, hw]

/-- Whatever the conversion and the lookup do, `FindWindow` returns either handle 0
with an error or a non-zero handle with a nil error. -/
theorem findWindow_shape (utf16ptr : GoString → Except GoError UTF16)
    (procFindWindowW : Option UTF16 → Option UTF16 → Nat) (className windowName : GoString) :
    (∃ e, FindWindow utf16ptr procFindWindowW className windowName = (0, some e)) ∨
    (∃ h, h ≠ 0 ∧ FindWindow utf16ptr procFindWindowW className windowName = (h, none)) := by
  unfold FindWindow
  cases ptrOrNil utf16ptr className with
  | error e => exact Or.inl ⟨e, rfl⟩
  | ok pc =>
    cases ptrOrNil utf16ptr windowName with
    | error e => exact Or.inl ⟨e, rfl⟩
    | ok pw =>
      by_cases h : FindWindowW procFindWindowW pc pw = 0
      · exact Or.inl ⟨windowNotFound, by simp [h]⟩
      · exact Or.inr ⟨FindWindowW procFindWindowW pc pw, h, by simp [h]⟩

/-- Whatever the conversion and the lookup do, `FindWindowEx` returns either handle 0
with an error or a non-zero handle with a nil error. -/
theorem findWindowEx_shape (utf16ptr : GoString → Except GoError UTF16)
    (procFindWindowExW : Handle → Handle → Option UTF16 → Option UTF16 → Nat)
    (hwndParent hwndChildAfter : Handle) (className windowName : GoString) :
    (∃ e, FindWindowEx utf16ptr procFindWindowExW hwndParent hwndChildAfter
        className windowName = (0, some e)) ∨
    (∃ h, h ≠ 0 ∧ FindWindowEx utf16ptr procFindWindowExW hwndParent hwndChildAfter
        className windowName = (h, none)) := by
  unfold FindWindowEx
  cases ptrOrNil utf16ptr className with
  | error e => exact Or.inl ⟨e, rfl⟩
  | ok pc =>
    cases ptrOrNil utf16ptr windowName with
    | error e => exact Or.inl ⟨e, rfl⟩
    | ok pw =>
      by_cases h : FindWindowExW procFindWindowExW hwndParent hwndChildAfter pc pw = 0
      · exact Or.inl ⟨windowNotFound, by simp [h]⟩
      · exact Or.inr ⟨FindWindowExW procFindWindowExW hwndParent hwndChildAfter pc pw, h,
          by simp [h]⟩

/-- C7: for every pair of strings that convert to the native text
representation, to the pointers `pc` and `pw`, `FindWindow` and `FindWindowEx`
return handle 0 with the not-found error when the native lookup on `pc` and
`pw` answers 0, and the handle it answers with a nil error otherwise; every
string without NUL byte converts; and on every input neither returns handle 0
with a nil error nor a non-zero handle with an error. -/
theorem findWindow_zero_handle_is_not_found
    (procFindWindowW : Option UTF16 → Option UTF16 → Nat)
    (procFindWindowExW : Handle → Handle → Option UTF16 → Option UTF16 → Nat)
    (hwndParent hwndChildAfter : Handle)
    (className windowName : GoString) (pc pw : Option UTF16)
    (hc : ptrOrNil UTF16PtrFromString className = .ok pc)
    (hw : ptrOrNil UTF16PtrFromString windowName = .ok pw) :
    (procFindWindowW pc pw = 0 →
      FindWindow UTF16PtrFromString procFindWindowW className windowName
        = (0, some windowNotFound)) ∧
    (procFindWindowW pc pw ≠ 0 →
      FindWindow UTF16PtrFromString procFindWindowW className windowName
        = (procFindWindowW pc pw, none)) ∧
    (procFindWindowExW hwndParent hwndChildAfter pc pw = 0 →
      FindWindowEx UTF16PtrFromString procFindWindowExW hwndParent hwndChildAfter
        className windowName = (0, some windowNotFound)) ∧
    (procFindWindowExW hwndParent hwndChildAfter pc pw ≠ 0 →
      FindWindowEx UTF16PtrFromString procFindWindowExW hwndParent hwndChildAfter
        className windowName
        = (procFindWindowExW hwndParent hwndChildAfter pc pw, none)) ∧
    (∀ (s : GoString), 0 ∉ s → ∃ p, ptrOrNil UTF16PtrFromString s = .ok p) ∧
    (∀ (cn wn : GoString),
      FindWindow UTF16PtrFromString procFindWindowW cn wn ≠ (0, none) ∧
      FindWindowEx UTF16PtrFromString procFindWindowExW hwndParent hwndChildAfter cn wn
        ≠ (0, none) ∧
      (∀ h e, h ≠ 0 →
        FindWindow UTF16PtrFromString procFindWindowW cn wn ≠ (h, some e) ∧
        FindWindowEx UTF16PtrFromString procFindWindowExW hwndParent hwndChildAfter cn wn
          ≠ (h, some e))) := by
  refine ⟨fun h => ?_, fun h => ?_, fun h => ?_, fun h => ?_, ptrOrNil_of_not_mem,
    fun cn wn => ⟨?_, ?_, ?_⟩⟩
  · rw [findWindow_eq _ _ _ _ pc pw hc hw, if_pos h]
  · rw [findWindow_eq _ _ _ _ pc pw hc hw, if_neg h]
  · rw [findWindowEx_eq _ _ _ _ _ _ pc pw hc hw, if_pos h]
  · rw [findWindowEx_eq _ _ _ _ _ _ pc pw hc hw, if_neg h]
  · rcases findWindow_shape UTF16PtrFromString procFindWindowW cn wn with ⟨e, he⟩ | ⟨h, h0, he⟩
    · simp [he]
    · simp [he, h0]
  · rcases findWindowEx_shape UTF16PtrFromString procFindWindowExW hwndParent hwndChildAfter
      cn wn with ⟨e, he⟩ | ⟨h, h0, he⟩
    · simp [he]
    · simp [he, h0]
  · intro h e h0
    constructor
    · rcases findWindow_shape UTF16PtrFromString procFindWindowW cn wn with
        ⟨e1, he⟩ | ⟨h1, _, he⟩
      · simp [he, Ne.symm h0]
      · simp [he]
    · rcases findWindowEx_shape UTF16PtrFromString procFindWindowExW hwndParent
        hwndChildAfter cn wn with ⟨e1, he⟩ | ⟨h1, _, he⟩
      · simp [he, Ne.symm h0]
      · simp [he]

/-- C7, instance: the class name is the WTF-8 form of the surrogate D800, which
converts to that single unit; there is no window name; the lookup knows one
window of that class. -/
theorem findWindow_zero_handle_is_not_found_witness :
    (ptrOrNil UTF16PtrFromString [0xED, 0xA0, 0x80] = .ok (some [0xD800, 0]) ∧
      ptrOrNil UTF16PtrFromString [] = .ok none) ∧
    FindWindow UTF16PtrFromString
        (fun c w => if c = some [0xD800, 0] ∧ w = none then 42 else 0) [0xED, 0xA0, 0x80] []
      = ((fun c w => if c = some [0xD800, 0] ∧ w = none then 42 else 0 :
            Option UTF16 → Option UTF16 → Nat) (some [0xD800, 0]) none, none) :=
  ⟨⟨rfl, rfl⟩,
    (findWindow_zero_handle_is_not_found
      (fun c w => if c = some [0xD800, 0] ∧ w = none then 42 else 0)
      (fun _ _ _ _ => 0) 0 0 [0xED, 0xA0, 0x80] [] (some [0xD800, 0]) none
      rfl rfl).2.1 (by decide)⟩

/-- C8: a className with a NUL byte makes `FindWindow` and `FindWindowEx` return
handle 0 and the encoding error `EINVAL` whatever the native lookup and the
window name are; so does a windowName with a NUL byte once className converts;
the error of a failing className conversion is the one returned, whatever the
conversion of windowName would give; and when both strings convert the error
is nil or the not-found error, never the encoding error. -/
theorem findWindow_encoding_error :
    (∀ (procFindWindowW : Option UTF16 → Option UTF16 → Nat)
        (procFindWindowExW : Handle → Handle → Option UTF16 → Option UTF16 → Nat)
        (hwndParent hwndChildAfter : Handle) (className windowName : GoString),
      0 ∈ className →
        FindWindow UTF16PtrFromString procFindWindowW className windowName
          = (0, some (.errno EINVAL)) ∧
        FindWindowEx UTF16PtrFromString procFindWindowExW hwndParent hwndChildAfter
          className windowName = (0, some (.errno EINVAL))) ∧
    (∀ (procFindWindowW : Option UTF16 → Option UTF16 → Nat)
        (procFindWindowExW : Handle → Handle → Option UTF16 → Option UTF16 → Nat)
        (hwndParent hwndChildAfter : Handle) (className windowName : GoString),
      0 ∉ className → 0 ∈ windowName →
        FindWindow UTF16PtrFromString procFindWindowW className windowName
          = (0, some (.errno EINVAL)) ∧
        FindWindowEx UTF16PtrFromString procFindWindowExW hwndParent hwndChildAfter
          className windowName = (0, some (.errno EINVAL))) ∧
    (∀ (utf16ptr : GoString → Except GoError UTF16)
        (procFindWindowW : Option UTF16 → Option UTF16 → Nat)
        (procFindWindowExW : Handle → Handle → Option UTF16 → Option UTF16 → Nat)
        (hwndParent hwndChildAfter : Handle) (className windowName : GoString) (e : GoError),
      className ≠ [] → utf16ptr className = .error e →
        FindWindow utf16ptr procFindWindowW className windowName = (0, some e) ∧
        FindWindowEx utf16ptr procFindWindowExW hwndParent hwndChildAfter
          className windowName = (0, some e)) ∧
    (∀ (procFindWindowW : Option UTF16 → Option UTF16 → Nat)
        (procFindWindowExW : Handle → Handle → Option UTF16 → Option UTF16 → Nat)
        (hwndParent hwndChildAfter : Handle) (className windowName : GoString),
      0 ∉ className → 0 ∉ windowName →
        ((FindWindow UTF16PtrFromString procFindWindowW className windowName).2 = none ∨
          (FindWindow UTF16PtrFromString procFindWindowW className windowName).2
            = some windowNotFound) ∧
        ((FindWindowEx UTF16PtrFromString procFindWindowExW hwndParent hwndChildAfter
            className windowName).2 = none ∨
          (FindWindowEx UTF16PtrFromString procFindWindowExW hwndParent hwndChildAfter
            className windowName).2 = some windowNotFound) ∧
        (FindWindow UTF16PtrFromString procFindWindowW className windowName).2
          ≠ some (.errno EINVAL) ∧
        (FindWindowEx UTF16PtrFromString procFindWindowExW hwndParent hwndChildAfter
          className windowName).2 ≠ some (.errno EINVAL)) := by
  refine ⟨?_, ?_, ?_, ?_⟩
  · intro p px hp ha cn wn hc
    simp [FindWindow, FindWindowEx, ptrOrNil_of_mem cn hc]
  · intro p px hp ha cn wn hc hw
    obtain ⟨pc, hpc⟩ := ptrOrNil_of_not_mem cn hc
    simp [FindWindow, FindWindowEx, hpc, ptrOrNil_of_mem wn hw]
  · intro conv p px hp ha cn wn e hne he
    simp [FindWindow, FindWindowEx, ptrOrNil, hne, he]
  · intro p px hp ha cn wn hc hw
    obtain ⟨pc, hpc⟩ := ptrOrNil_of_not_mem cn hc
    obtain ⟨pw, hpw⟩ := ptrOrNil_of_not_mem wn hw
    rw [findWindow_eq _ p cn wn pc pw hpc hpw, findWindowEx_eq _ px hp ha cn wn pc pw hpc hpw]
    refine ⟨?_, ?_, ?_, ?_⟩
    · by_cases h : p pc pw = 0 <;> simp [h]
    · by_cases h : px hp ha pc pw = 0 <;> simp [h]
    · by_cases h : p pc pw = 0 <;> simp [h, windowNotFound]
    · by_cases h : px hp ha pc pw = 0 <;> simp [h, windowNotFound]

/-- C8, instance: class name "A\x00", window name "B", a lookup that would
return handle 5. -/
theorem findWindow_encoding_error_witness :
    0 ∈ ([65, 0] : GoString) ∧
    FindWindow UTF16PtrFromString (fun _ _ => 5) [65, 0] [66] = (0, some (.errno EINVAL)) :=
  ⟨by decide,
    (findWindow_encoding_error.1 (fun _ _ => 5) (fun _ _ _ _ => 5) 0 0 [65, 0] [66]
      (by decide)).1⟩

/-- C10 (as amended): `FindWindow("", "")` hands two nil pointers to the native
lookup and returns the handle it reports with a nil error when that handle is
non-zero, and handle 0 with the not-found error when the lookup reports 0. -/
theorem findWindow_no_criteria (utf16ptr : GoString → Except GoError UTF16)
    (procFindWindowW : Option UTF16 → Option UTF16 → Nat) :
    FindWindow utf16ptr procFindWindowW [] []
      = if procFindWindowW none none = 0 then (0, some windowNotFound)
        else (procFindWindowW none none, none) := by
  simp [FindWindow, FindWindowW, ptrOrNil]

/-- C10 fails as stated: when the native lookup reports no window for the
wildcard query, `FindWindow("", "")` returns an error. -/
theorem findWindow_no_criteria_can_fail :
    ¬ (FindWindow UTF16PtrFromString (fun _ _ => 0) [] []).2 = none := by
  decide

/-- C9 (as amended): every error returned by `FindWindowFromEnum(title)` is a
message that contains `title`; the not-found error of `FindWindow` and of
`FindWindowEx`, returned when both strings convert and the native lookup on
the converted pointers answers 0, is the fixed message "Window not found",
whatever class name and window name were searched for. -/
theorem not_found_messages :
    (∀ (procEnumWindows : EnumFunc Handle → Nat → Handle → Ret Handle)
        (procGetWindowTextW : Handle → UTF16 → Int → Ret UTF16) (title : GoString) (e : GoError),
      (FindWindowFromEnum procEnumWindows procGetWindowTextW title).2 = some e →
        ∃ msg, e = .text msg ∧ title <:+: msg) ∧
    (∀ (procFindWindowW : Option UTF16 → Option UTF16 → Nat)
        (procFindWindowExW : Handle → Handle → Option UTF16 → Option UTF16 → Nat)
        (hwndParent hwndChildAfter : Handle) (className windowName : GoString)
        (pc pw : Option UTF16),
      ptrOrNil UTF16PtrFromString className = .ok pc →
      ptrOrNil UTF16PtrFromString windowName = .ok pw →
      (procFindWindowW pc pw = 0 →
        FindWindow UTF16PtrFromString procFindWindowW className windowName
          = (0, some (.text (lit "Window not found")))) ∧
      (procFindWindowExW hwndParent hwndChildAfter pc pw = 0 →
        FindWindowEx UTF16PtrFromString procFindWindowExW hwndParent hwndChildAfter
          className windowName = (0, some (.text (lit "Window not found"))))) := by
  refine ⟨?_, ?_⟩
  · intro pe pg title e he
    unfold FindWindowFromEnum at he
    by_cases h : (EnumWindows pe (enumCallback pg title) 0 0).1 = 0
    · simp [h] at he
      exact ⟨_, he.symm, ⟨lit "No window with title '", lit "' found", rfl⟩⟩
    · simp [h] at he
  · intro p px hp ha cn wn pc pw hc hw
    constructor
    · intro h
      rw [findWindow_eq _ p cn wn pc pw hc hw, if_pos h]
      rfl
    · intro h
      rw [findWindowEx_eq _ px hp ha cn wn pc pw hc hw, if_pos h]
      rfl

/-- C9, instance: searching the title "x" among no windows. -/
theorem not_found_messages_witness :
    (FindWindowFromEnum (listEnumWindows [] 1 0) (titleRead []) [120]).2
        = some (noWindowWithTitle [120]) ∧
    ∃ msg, noWindowWithTitle [120] = .text msg ∧ [120] <:+: msg :=
  ⟨by decide,
    not_found_messages.1 (listEnumWindows [] 1 0) (titleRead []) [120]
      (noWindowWithTitle [120]) (by decide)⟩

/-- C9 fails as stated: `FindWindow("Foo", "Bar")` on a lookup that finds nothing
returns the message "Window not found", which contains neither "Foo" nor
"Bar". -/
theorem findWindow_not_found_omits_criteria :
    FindWindow UTF16PtrFromString (fun _ _ => 0) (lit "Foo") (lit "Bar")
        = (0, some (.text (lit "Window not found"))) ∧
    ¬ (lit "Foo" <:+: lit "Window not found") ∧
    ¬ (lit "Bar" <:+: lit "Window not found") := by
  decide

/-- C5 (as amended): the error of the inner `EnumWindows` call is dropped by
`FindWindowFromEnum`: when that call returns an error and no window matched,
the result is handle 0 with the not-found error for `title`; and no run of
`FindWindowFromEnum` returns an error number. -/
theorem findWindowFromEnum_drops_enum_error
    (procEnumWindows : EnumFunc Handle → Nat → Handle → Ret Handle)
    (procGetWindowTextW : Handle → UTF16 → Int → Ret UTF16) (title : GoString)
    (e : GoError)
    (_hfail : (EnumWindows procEnumWindows (enumCallback procGetWindowTextW title) 0 0).2
      = some e)
    (hnone : (EnumWindows procEnumWindows (enumCallback procGetWindowTextW title) 0 0).1 = 0) :
    FindWindowFromEnum procEnumWindows procGetWindowTextW title
        = (0, some (noWindowWithTitle title)) ∧
    ∀ (pe : EnumFunc Handle → Nat → Handle → Ret Handle)
      (pg : Handle → UTF16 → Int → Ret UTF16) (t : GoString) (n : Errno),
      (FindWindowFromEnum pe pg t).2 ≠ some (.errno n) := by
  constructor
  · simp [FindWindowFromEnum, hnone]
  · intro pe pg t n
    unfold FindWindowFromEnum
    by_cases h : (EnumWindows pe (enumCallback pg t) 0 0).1 = 0 <;>
      simp [h, noWindowWithTitle]

/-- C5, instance: the enumeration primitive fails with error number 5 over no
windows. -/
theorem findWindowFromEnum_drops_enum_error_witness :
    (EnumWindows (listEnumWindows [] 0 5) (enumCallback (titleRead []) [120]) 0 0).2
        = some (.errno 5) ∧
    FindWindowFromEnum (listEnumWindows [] 0 5) (titleRead []) [120]
        = (0, some (noWindowWithTitle [120])) :=
  ⟨by decide,
    (findWindowFromEnum_drops_enum_error (listEnumWindows [] 0 5) (titleRead []) [120]
      (.errno 5) (by decide) (by decide)).1⟩

/-- C5 fails as stated: the enumeration primitive reports failure with error
number 5, no window matched, and `FindWindowFromEnum` does not return that
error. -/
theorem findWindowFromEnum_enum_error_lost :
    (EnumWindows (listEnumWindows [] 0 5) (enumCallback (titleRead []) [120]) 0 0)
        = (0, some (.errno 5)) ∧
    ¬ (FindWindowFromEnum (listEnumWindows [] 0 5) (titleRead []) [120]).2
        = some (.errno 5) := by
  decide

/-! ## Lookup by enumeration -/

/-- The callback notes the window and stops exactly when `titleMatches` holds. -/
theorem enumCallback_eq (procGetWindowTextW : Handle → UTF16 → Int → Ret UTF16)
    (title : GoString) (h : Handle) (p : Nat) (hwnd : Handle) :
    enumCallback procGetWindowTextW title h p hwnd
      = if titleMatches procGetWindowTextW title h then (h, 0) else (hwnd, 1) := by
  simp only [enumCallback, titleMatches, List.length_replicate, Nat.cast_ofNat]
  by_cases h1 : (GetWindowText procGetWindowTextW h (List.replicate 200 0) 200).2.2 = none
  · by_cases h2 :
      UTF16ToString (GetWindowText procGetWindowTextW h (List.replicate 200 0) 200).1 = title
    · simp only [h1, h2, ne_eq, not_true_eq_false, if_false, if_true, decide_True,
        Bool.and_self]
    · simp only [h1, h2, ne_eq, not_true_eq_false, if_false, decide_True, decide_False,
        Bool.and_false, Bool.false_eq_true]
  · simp only [h1, ne_eq, not_false_eq_true, if_true, decide_False, Bool.false_and,
      Bool.false_eq_true, if_false]

/-- Running the callback over a list of windows: the state ends as the first
handle that matches, and the loop is stopped there; with no match the state is
untouched and the loop runs to the end. -/
theorem enumLoop_enumCallback (procGetWindowTextW : Handle → UTF16 → Int → Ret UTF16)
    (title : GoString) (lparam : Nat) (hs : List Handle) (hwnd : Handle) :
    enumLoop (enumCallback procGetWindowTextW title) lparam hs hwnd
      = match hs.find? (titleMatches procGetWindowTextW title) with
        | some h => (h, true)
        | none => (hwnd, false) := by
  induction hs generalizing hwnd with
  | nil => rfl
  | cons h hs ih =>
    by_cases hm : titleMatches procGetWindowTextW title h = true
    · simp [enumLoop, enumCallback_eq, hm, List.find?_cons]
    · simp only [Bool.not_eq_true] at hm
      simp [enumLoop, enumCallback_eq, hm, List.find?_cons, ih]

/-- Value of `FindWindowFromEnum` over a list of windows, in terms of the first
matching handle. -/
theorem findWindowFromEnum_list (hs : List Handle) (done : Nat) (e : Errno)
    (procGetWindowTextW : Handle → UTF16 → Int → Ret UTF16) (title : GoString) :
    FindWindowFromEnum (listEnumWindows hs done e) procGetWindowTextW title
      = match hs.find? (titleMatches procGetWindowTextW title) with
        | some h => if h = 0 then (0, some (noWindowWithTitle title)) else (h, none)
        | none => (0, some (noWindowWithTitle title)) := by
  have hstate : (EnumWindows (listEnumWindows hs done e)
      (enumCallback procGetWindowTextW title) 0 0).1
      = (enumLoop (enumCallback procGetWindowTextW title) 0 hs 0).1 := by
    unfold EnumWindows listEnumWindows
    dsimp only
    split_ifs <;> rfl
  unfold FindWindowFromEnum
  rw [hstate, enumLoop_enumCallback]
  cases hs.find? (titleMatches procGetWindowTextW title) with
  | none => simp
  | some h => simp

/-- Decoding stops at the NUL that ends the copied title. -/
theorem UTF16ToString_append_nul (a b : UTF16) :
    UTF16ToString (a ++ 0 :: b) = UTF16ToString a := by
  have h : ∀ l : UTF16, (l ++ 0 :: b).takeWhile (fun v => v != 0)
      = l.takeWhile (fun v => v != 0) := by
    intro l
    induction l with
    | nil => simp
    | cons x xs ih =>
      by_cases hx : x = 0
      · simp [hx]
      · simp [List.takeWhile_cons, hx, ih]
  unfold UTF16ToString
  rw [h]

/-- C2: over a finite list of windows visited in order, `FindWindowFromEnum(title)`
returns the handle of the first window whose title read succeeds and whose
200-unit buffer decodes to `title`, with a nil error when that handle is not
zero; windows before it, whose read fails or whose buffer decodes to something
else, are passed over; with no such window the result is handle 0 with the
not-found error; and the decoding stops at the first NUL of the buffer. -/
theorem findWindowFromEnum_first_match (hs : List Handle) (done : Nat) (e : Errno)
    (procGetWindowTextW : Handle → UTF16 → Int → Ret UTF16) (title : GoString) :
    (∀ h, hs.find? (titleMatches procGetWindowTextW title) = some h →
      (FindWindowFromEnum (listEnumWindows hs done e) procGetWindowTextW title).1 = h ∧
      (h ≠ 0 →
        FindWindowFromEnum (listEnumWindows hs done e) procGetWindowTextW title = (h, none))) ∧
    (hs.find? (titleMatches procGetWindowTextW title) = none →
      FindWindowFromEnum (listEnumWindows hs done e) procGetWindowTextW title
        = (0, some (noWindowWithTitle title))) ∧
    (∀ h, titleMatches procGetWindowTextW title h = true ↔
      (GetWindowText procGetWindowTextW h (List.replicate 200 0) 200).2.2 = none ∧
      UTF16ToString (GetWindowText procGetWindowTextW h (List.replicate 200 0) 200).1
        = title) ∧
    (∀ a b : UTF16, UTF16ToString (a ++ 0 :: b) = UTF16ToString a) := by
  refine ⟨fun h hf => ?_, fun hf => ?_, fun h => ?_, UTF16ToString_append_nul⟩
  · rw [findWindowFromEnum_list, hf]
    constructor
    · by_cases h0 : h = 0 <;> simp [h0]
    · intro h0
      simp [h0]
  · rw [findWindowFromEnum_list, hf]
  · simp [titleMatches]

/-- C2, instance: the title searched is the WTF-8 form of the surrogate D800.  Of
four windows, the first has an unreadable title, the second is titled U+FFFD,
the third and fourth are titled with the single unit D800; the third is
returned. -/
theorem findWindowFromEnum_first_match_witness :
    [4, 8, 5, 7].find? (titleMatches
        (titleRead [⟨4, [], 5⟩, ⟨8, [0xFFFD], 0⟩, ⟨5, [0xD800], 0⟩, ⟨7, [0xD800], 0⟩])
        [0xED, 0xA0, 0x80]) = some 5 ∧
    FindWindowFromEnum (listEnumWindows [4, 8, 5, 7] 1 0)
        (titleRead [⟨4, [], 5⟩, ⟨8, [0xFFFD], 0⟩, ⟨5, [0xD800], 0⟩, ⟨7, [0xD800], 0⟩])
        [0xED, 0xA0, 0x80] = (5, none) :=
  ⟨by decide,
    ((findWindowFromEnum_first_match [4, 8, 5, 7] 1 0
      (titleRead [⟨4, [], 5⟩, ⟨8, [0xFFFD], 0⟩, ⟨5, [0xD800], 0⟩, ⟨7, [0xD800], 0⟩])
      [0xED, 0xA0, 0x80]).1 5 (by decide)).2 (by decide)⟩

/-! ## Lookup by enumeration over windows with real titles -/

/-- A length below 2^31 is itself after `int32`. -/
theorem int32_of_lt (n : Nat) (h : n < 2 ^ 31) : int32 n = n := by
  have h1 : n % 2 ^ 32 = n := Nat.mod_eq_of_lt (by omega)
  unfold int32
  rw [h1, if_pos h]

/-- The callback test on a window whose read copies its real title: the title is
not empty and its first 199 units decode to `T`. -/
theorem titleMatches_copyTitle (procGetWindowTextW : Handle → UTF16 → Int → Ret UTF16)
    (T : GoString) (h : Handle) (w : Window)
    (hp : procGetWindowTextW h (List.replicate 200 0) 200
      = copyTitle w (List.replicate 200 0) 200) :
    titleMatches procGetWindowTextW T h = (decide (w.title ≠ []) && decide (shownTitle w = T)) := by
  have hlen : (List.take 199 w.title).length < 2 ^ 31 := by
    have := List.length_take_le 199 w.title
    omega
  have hcopy : copyTitle w (List.replicate 200 0) 200
      = { r1 := (List.take 199 w.title).length, err := w.lastError,
          mem := List.take 199 w.title
            ++ 0 :: (List.replicate 200 0).drop ((List.take 199 w.title).length + 1) } := by
    unfold copyTitle
    rw [if_neg (by decide)]
    rfl
  unfold titleMatches GetWindowText shownTitle
  simp only [hp, hcopy, int32_of_lt _ hlen]
  by_cases ht : w.title = []
  · by_cases he : w.lastError = 0 <;> simp [ht, he]
  · have hpos : ¬ (((List.take 199 w.title).length : Nat) : Int) = 0 := by
      cases hw : w.title with
      | nil => exact absurd hw ht
      | cons x xs =>
        simp only [List.take_succ_cons, List.length_cons]
        omega
    simp only [hpos, if_false, ht, ne_eq, not_false_eq_true, decide_True, Bool.true_and,
      UTF16ToString_append_nul]

/-- The callback test against `titleRead` fails on a handle that names no window. -/
theorem titleMatches_titleRead_none (ws : List Window) (T : GoString) (h : Handle)
    (hf : ws.find? (fun w => w.h = h) = none) :
    titleMatches (titleRead ws) T h = false := by
  unfold titleMatches GetWindowText titleRead
  simp only [hf]
  rfl

/-- The callback test against `titleRead` on a handle that names the window `w`. -/
theorem titleMatches_titleRead_some (ws : List Window) (T : GoString) (h : Handle) (w : Window)
    (hf : ws.find? (fun w => w.h = h) = some w) :
    titleMatches (titleRead ws) T h = (decide (w.title ≠ []) && decide (shownTitle w = T)) := by
  apply titleMatches_copyTitle
  unfold titleRead
  simp only [hf]

/-- With distinct handles, a handle of the list reads the window it belongs to. -/
theorem find_by_handle (ws : List Window) (w : Window)
    (hnd : (ws.map Window.h).Nodup) (hw : w ∈ ws) :
    ws.find? (fun x => x.h = w.h) = some w := by
  induction ws with
  | nil => simp at hw
  | cons x xs ih =>
    rw [List.map_cons, List.nodup_cons] at hnd
    rcases List.mem_cons.mp hw with rfl | hmem
    · simp [List.find?_cons]
    · have hne : ¬ x.h = w.h := by
        intro heq
        exact hnd.1 (heq ▸ List.mem_map_of_mem Window.h hmem)
      simp [List.find?_cons, hne, ih hnd.2 hmem]

/-- The first handle that passes a test, in a list where one window passes it and
every other window fails it. -/
theorem find_unique_handle (p : Handle → Bool) (ws : List Window) (w : Window)
    (hw : w ∈ ws) (hp : p w.h = true) (hq : ∀ x ∈ ws, x ≠ w → p x.h = false) :
    (ws.map Window.h).find? p = some w.h := by
  induction ws with
  | nil => simp at hw
  | cons x xs ih =>
    by_cases hx : x = w
    · simp [List.find?_cons, hx, hp]
    · have hmem : w ∈ xs := by
        rcases List.mem_cons.mp hw with rfl | hmem
        · exact absurd rfl hx
        · exact hmem
      have hpx : p x.h = false := hq x (List.mem_cons_self _ _) hx
      simp only [List.map_cons, List.find?_cons, hpx]
      exact ih hmem (fun y hy hne => hq y (List.mem_cons_of_mem _ hy) hne)

/-- Every rune takes at least one UTF-16 unit. -/
theorem utf16AppendRune_ne_nil (v : Nat) : utf16AppendRune v ≠ [] := by
  unfold utf16AppendRune
  split_ifs <;> simp

/-- The WTF-16 form of a non-empty string is not empty. -/
theorem encodeWTF16_ne_nil (T : GoString) (hT : T ≠ []) : encodeWTF16 0 T ≠ [] := by
  cases T with
  | nil => exact absurd rfl hT
  | cons b rest =>
    unfold encodeWTF16
    dsimp only
    split_ifs
    · simp
    · intro h
      exact utf16AppendRune_ne_nil _ (List.append_eq_nil.mp h).1

/-- C3 (as amended): for every non-empty title `T` whose UTF-16 form has at most
199 units and decodes back to `T`, and every set of windows with distinct
handles in which a window `w` with non-zero handle has title `T` and no other
window has a non-empty title whose first 199 units decode to `T`,
`FindWindowFromEnum(T)` returns the handle of `w` with a nil error. -/
theorem findAmong_titled_window (ws : List Window) (w : Window) (T : GoString)
    (hnd : (ws.map Window.h).Nodup) (hw : w ∈ ws) (h0 : w.h ≠ 0)
    (ht : hasTitle w T) (hne : T ≠ [])
    (hlen : (encodeWTF16 0 T).length ≤ 199)
    (hrt : UTF16ToString (encodeWTF16 0 T) = T)
    (huniq : ∀ x ∈ ws, x ≠ w → x.title ≠ [] → shownTitle x ≠ T) :
    findAmong ws T = (w.h, none) := by
  have hmatch : ∀ x ∈ ws, titleMatches (titleRead ws) T x.h
      = (decide (x.title ≠ []) && decide (shownTitle x = T)) :=
    fun x hx => titleMatches_titleRead_some ws T x.h x (find_by_handle ws x hnd hx)
  have hself : titleMatches (titleRead ws) T w.h = true := by
    rw [hmatch w hw]
    have h1 : w.title ≠ [] := by
      rw [ht]
      exact encodeWTF16_ne_nil T hne
    have h2 : shownTitle w = T := by
      unfold shownTitle
      rw [ht, List.take_of_length_le hlen, hrt]
    simp [h1, h2]
  have hother : ∀ x ∈ ws, x ≠ w → titleMatches (titleRead ws) T x.h = false := by
    intro x hx hxw
    rw [hmatch x hx]
    by_cases h1 : x.title = []
    · simp [h1]
    · simp [huniq x hx hxw h1]
  unfold findAmong
  rw [findWindowFromEnum_list, find_unique_handle _ ws w hw hself hother]
  simp [h0]

/-- C3, instance: the title searched is "h", e-acute, the euro sign, an emoji and
the WTF-8 form of the surrogate D800, six UTF-16 units in all; the window
before the one so titled is titled "h". -/
theorem findAmong_titled_window_witness :
    ((([⟨4, [0x68], 0⟩, ⟨6, [0x68, 0xE9, 0x20AC, 0xD83D, 0xDE00, 0xD800], 0⟩] :
          List Window).map Window.h).Nodup ∧
      hasTitle ⟨6, [0x68, 0xE9, 0x20AC, 0xD83D, 0xDE00, 0xD800], 0⟩
        [0x68, 0xC3, 0xA9, 0xE2, 0x82, 0xAC, 0xF0, 0x9F, 0x98, 0x80, 0xED, 0xA0, 0x80] ∧
      UTF16ToString (encodeWTF16 0
          [0x68, 0xC3, 0xA9, 0xE2, 0x82, 0xAC, 0xF0, 0x9F, 0x98, 0x80, 0xED, 0xA0, 0x80])
        = [0x68, 0xC3, 0xA9, 0xE2, 0x82, 0xAC, 0xF0, 0x9F, 0x98, 0x80, 0xED, 0xA0, 0x80]) ∧
    findAmong [⟨4, [0x68], 0⟩, ⟨6, [0x68, 0xE9, 0x20AC, 0xD83D, 0xDE00, 0xD800], 0⟩]
        [0x68, 0xC3, 0xA9, 0xE2, 0x82, 0xAC, 0xF0, 0x9F, 0x98, 0x80, 0xED, 0xA0, 0x80]
      = (6, none) :=
  ⟨by decide,
    findAmong_titled_window
      [⟨4, [0x68], 0⟩, ⟨6, [0x68, 0xE9, 0x20AC, 0xD83D, 0xDE00, 0xD800], 0⟩]
      ⟨6, [0x68, 0xE9, 0x20AC, 0xD83D, 0xDE00, 0xD800], 0⟩
      [0x68, 0xC3, 0xA9, 0xE2, 0x82, 0xAC, 0xF0, 0x9F, 0x98, 0x80, 0xED, 0xA0, 0x80]
      (by decide) (by decide) (by decide) (by decide) (by decide) (by decide) (by decide)
      (by decide)⟩

set_option maxRecDepth 100000 in
/-- C3 fails as stated, in each case it names: the only window has the empty
title and the empty title is not found; the only window has a title of 200
units and that title is not found; the only window has the title that the
byte FF encodes to and that string is not found; and a window whose title of
250 units starts with the 199-unit title of the window after it is returned
in place of that window. -/
theorem findAmong_titled_window_fails :
    (hasTitle ⟨5, [], 0⟩ [] ∧ ¬ findAmong [⟨5, [], 0⟩] [] = (5, none)) ∧
    (hasTitle ⟨5, List.replicate 200 97, 0⟩ (List.replicate 200 97) ∧
      ¬ findAmong [⟨5, List.replicate 200 97, 0⟩] (List.replicate 200 97) = (5, none)) ∧
    (hasTitle ⟨5, [0xFFFD], 0⟩ [0xFF] ∧ ¬ findAmong [⟨5, [0xFFFD], 0⟩] [0xFF] = (5, none)) ∧
    (hasTitle ⟨6, List.replicate 199 97, 0⟩ (List.replicate 199 97) ∧
      ¬ hasTitle ⟨5, List.replicate 250 97, 0⟩ (List.replicate 199 97) ∧
      ¬ findAmong [⟨5, List.replicate 250 97, 0⟩, ⟨6, List.replicate 199 97, 0⟩]
          (List.replicate 199 97) = (6, none)) := by
  decide

/-- C4 (as amended): for every query `T` and every set of windows in which no
window has a non-empty title whose first 199 units decode to `T`,
`FindWindowFromEnum(T)` returns handle 0 and the not-found error. -/
theorem findAmong_not_found (ws : List Window) (T : GoString)
    (hno : ∀ w ∈ ws, w.title ≠ [] → shownTitle w ≠ T) :
    findAmong ws T = (0, some (noWindowWithTitle T)) := by
  have hnone : (ws.map Window.h).find? (titleMatches (titleRead ws) T) = none := by
    rw [List.find?_eq_none]
    intro h _
    cases hf : ws.find? (fun w => w.h = h) with
    | none => simp [titleMatches_titleRead_none ws T h hf]
    | some w =>
      rw [titleMatches_titleRead_some ws T h w hf]
      by_cases h1 : w.title = []
      · simp [h1]
      · simp [hno w (List.mem_of_find?_eq_some hf) h1]
  unfold findAmong
  rw [findWindowFromEnum_list, hnone]

/-- C4, instance: U+FFFD is searched among windows titled "ab", "" and the
single surrogate unit D800, which the buffer shows as ED A0 80. -/
theorem findAmong_not_found_witness :
    (∀ w ∈ ([⟨4, [97, 98], 0⟩, ⟨6, [], 0⟩, ⟨5, [0xD800], 0⟩] : List Window),
      w.title ≠ [] → shownTitle w ≠ [0xEF, 0xBF, 0xBD]) ∧
    findAmong [⟨4, [97, 98], 0⟩, ⟨6, [], 0⟩, ⟨5, [0xD800], 0⟩] [0xEF, 0xBF, 0xBD]
      = (0, some (noWindowWithTitle [0xEF, 0xBF, 0xBD])) :=
  ⟨by decide,
    findAmong_not_found [⟨4, [97, 98], 0⟩, ⟨6, [], 0⟩, ⟨5, [0xD800], 0⟩] [0xEF, 0xBF, 0xBD]
      (by decide)⟩

set_option maxRecDepth 100000 in
/-- C4 fails as stated: the only window has a title of 250 units, which is not the
199-unit query, and the query is found all the same. -/
theorem findAmong_truncated_title_found :
    ¬ hasTitle ⟨5, List.replicate 250 97, 0⟩ (List.replicate 199 97) ∧
    ¬ findAmong [⟨5, List.replicate 250 97, 0⟩] (List.replicate 199 97)
        = (0, some (noWindowWithTitle (List.replicate 199 97))) := by
  decide

end W32Find
